import Mathlib

/-!
Shallow embedding of the scene lifecycle controller in src/main.ts
(class ThreeJSScene).  Numeric state is modelled over the rationals:
every numeric literal of the source (0.01, 0.05, 0.1, 75, 1000, 2, 20, …)
is an exact decimal, embedded as the corresponding rational.  Third-party
library behaviour (the rendering engine, the orbit-control add-on, the
stats overlay, and the platform animation-frame scheduler) is modelled
from the spec where the repository only configures it; each such
definition carries a doc comment saying so.
-/

namespace ThreeDemo

/-- Camera state of the perspective camera.  fov, aspect, near, far are the
constructor arguments; projectionAspect records the aspect value last
committed by updateProjectionMatrix (the constructor commits the initial
aspect); posX, posY, posZ is camera.position. -/
structure CameraState where
  fov : ℚ
  aspect : ℚ
  near : ℚ
  far : ℚ
  projectionAspect : ℚ
  posX : ℚ
  posY : ℚ
  posZ : ℚ
deriving DecidableEq

/-- Committing the projection: camera.updateProjectionMatrix() recomputes the
projection from the current aspect (modelled as recording the aspect). -/
def cameraUpdateProjectionMatrix (c : CameraState) : CameraState :=
  { c with projectionAspect := c.aspect }

/-- Rendering-surface state of the WebGLRenderer: CSS size (width, height),
device pixel ratio, drawing-buffer output size, shadow-map flags
(enabled, soft = PCFSoftShadowMap), clear color and alpha, a cumulative
render-call counter, whether the underlying graphics context has been
released, and whether the output canvas is attached to the page. -/
structure RendererState where
  width : ℚ
  height : ℚ
  pixelRatio : ℚ
  outputWidth : ℚ
  outputHeight : ℚ
  shadowMapEnabled : Bool
  shadowMapSoft : Bool
  clearColor : Nat
  clearAlpha : ℚ
  renderCount : Nat
  contextDisposed : Bool
  domAttached : Bool
deriving DecidableEq

/-- Modelled from the spec: renderer.setSize(w, h) records the CSS size and
sets the drawing-buffer output dimensions to the size scaled by the active
device pixel ratio. -/
def rendererSetSize (r : RendererState) (w h : ℚ) : RendererState :=
  { r with width := w, height := h,
           outputWidth := w * r.pixelRatio, outputHeight := h * r.pixelRatio }

/-- Modelled from the spec: renderer.setPixelRatio(v) stores the device pixel
ratio and re-applies the current size so the output dimensions pick up the
new ratio. -/
def rendererSetPixelRatio (r : RendererState) (v : ℚ) : RendererState :=
  let r1 := { r with pixelRatio := v }
  rendererSetSize r1 r1.width r1.height

/-- Modelled from the spec: renderer.render(scene, camera) draws one frame;
the persistent state change is the frame counter. -/
def rendererRender (r : RendererState) : RendererState :=
  { r with renderCount := r.renderCount + 1 }

/-- renderer.dispose() releases the underlying graphics context; it does not
detach the output canvas from the page. -/
def rendererDispose (r : RendererState) : RendererState :=
  { r with contextDisposed := true }

/-- One object added to the scene graph.  The plane's rotation.x = -π/2 is
recorded exactly in units of π/2 (rotXHalfPi = -1 means -π/2). -/
inductive SceneObj where
  | ambientLight (color : Nat) (intensity : ℚ)
  | directionalLight (color : Nat) (intensity : ℚ) (posX posY posZ : ℚ)
      (castShadow : Bool) (shadowMapW shadowMapH : Nat)
  | cubeMesh (sizeX sizeY sizeZ : ℚ) (color : Nat)
      (castShadow receiveShadow : Bool)
  | planeMesh (sizeX sizeY : ℚ) (color : Nat) (rotXHalfPi : ℤ) (posY : ℚ)
      (receiveShadow : Bool)
deriving DecidableEq

def SceneObj.isAmbientLight : SceneObj → Bool
  | .ambientLight .. => true
  | _ => false

def SceneObj.isDirectionalLight : SceneObj → Bool
  | .directionalLight .. => true
  | _ => false

def SceneObj.isCubeMesh : SceneObj → Bool
  | .cubeMesh .. => true
  | _ => false

def SceneObj.isPlaneMesh : SceneObj → Bool
  | .planeMesh .. => true
  | _ => false

/-- Orbit-control state: the configuration fields the source sets, whether the
control's input listeners are still bound, and a counter of update() calls
standing for the third-party damped-state advance. -/
structure ControlsState where
  enableDamping : Bool
  dampingFactor : ℚ
  minDistance : ℚ
  maxDistance : ℚ
  listenersBound : Bool
  updateCalls : Nat
deriving DecidableEq

/-- Modelled from the spec: controls.update() advances the control's damped
state one step (with no pointer input the camera is left unchanged). -/
def controlsUpdate (c : ControlsState) : ControlsState :=
  { c with updateCalls := c.updateCalls + 1 }

/-- controls.dispose() releases the control's bound input listeners. -/
def controlsDispose (c : ControlsState) : ControlsState :=
  { c with listenersBound := false }

/-- Modelled from the spec: the orbit-control update step clamps the
camera-to-target distance to the configured [minDistance, maxDistance]
interval (the control implementation is a third-party add-on, not part of
the repository sources); given the distance a zoom input requests, this is
the effective distance after the update step. -/
def orbitEffectiveDistance (c : ControlsState) (requested : ℚ) : ℚ :=
  max c.minDistance (min c.maxDistance requested)

/-- Performance-overlay (Stats) state: the selected panel, whether the css
class was added, whether stats.dom is attached to the page
(stats.dom.parentNode is non-null), and begin/end call counters holding
the rolling frame-timing bracket. -/
structure StatsState where
  panel : Nat
  hasStatsClass : Bool
  attached : Bool
  begunFrames : Nat
  endedFrames : Nat
deriving DecidableEq

/-- stats.begin() marks frame start. -/
def StatsState.beginFrame (st : StatsState) : StatsState :=
  { st with begunFrames := st.begunFrames + 1 }

/-- stats.end() marks frame end. -/
def StatsState.endFrame (st : StatsState) : StatsState :=
  { st with endedFrames := st.endedFrames + 1 }

/-- Removing stats.dom from its parent node.  This is the fallible DOM
primitive: removing an already-detached element faults, which the source
avoids by guarding on stats.dom.parentNode. -/
def statsDomRemove (st : StatsState) : Option StatsState :=
  if st.attached then some { st with attached := false } else none

/-- The cube mesh's mutable transform (this.cube); each rotation component in
radians, exactly rational since the animation only ever adds 0.01. -/
structure CubeState where
  rotX : ℚ
  rotY : ℚ
  rotZ : ℚ
deriving DecidableEq

/-- The fields of class ThreeJSScene. -/
structure ThreeJSScene where
  scene : List SceneObj
  camera : CameraState
  renderer : RendererState
  controls : ControlsState
  stats : StatsState
  cube : CubeState
  animationFrameId : Nat
  resizeBound : Bool
deriving DecidableEq

/-- Modelled from the spec: the platform's animation-frame scheduler.  pending
holds the outstanding scheduled callback handles; nextId is the next fresh
handle (handles start at 1, so 0 is never a live handle). -/
structure Platform where
  pending : List Nat
  nextId : Nat
deriving DecidableEq

/-- Modelled from the spec: requestAnimationFrame schedules a callback and
returns a fresh nonzero handle for later cancellation. -/
def requestAnimationFrame (p : Platform) : Nat × Platform :=
  (p.nextId, { pending := p.pending ++ [p.nextId], nextId := p.nextId + 1 })

/-- Modelled from the spec: cancelAnimationFrame removes the handle's pending
callback; cancelling a handle that is no longer pending is a harmless
no-op. -/
def cancelAnimationFrame (p : Platform) (id : Nat) : Platform :=
  { p with pending := p.pending.filter (fun x => x != id) }

/-- The whole system: the controller instance plus the platform scheduler. -/
structure Sys where
  ctrl : ThreeJSScene
  platform : Platform
deriving DecidableEq

/-- The observable side effects of one animation step, in the order they are
performed. -/
inductive Effect where
  | schedule (id : Nat)
  | statsBegin
  | rotateCube
  | controlsStep
  | render
  | statsEnd
deriving DecidableEq

/-- Sequencing of two effectful steps: run the first, then the second on its
resulting state, concatenating the emitted effect traces in order. -/
def seqE (a b : Sys → Sys × List Effect) (s : Sys) : Sys × List Effect :=
  match a s with
  | (s1, e1) =>
    match b s1 with
    | (s2, e2) => (s2, e1 ++ e2)

/-- Line 120: this.animationFrameId = requestAnimationFrame(this.animate...),
performed at the top of animate(). -/
def stepSchedule (s : Sys) : Sys × List Effect :=
  match requestAnimationFrame s.platform with
  | (id, p) => (⟨{ s.ctrl with animationFrameId := id }, p⟩, [Effect.schedule id])

/-- Line 123: this.stats.begin(). -/
def stepStatsBegin (s : Sys) : Sys × List Effect :=
  (⟨{ s.ctrl with stats := s.ctrl.stats.beginFrame }, s.platform⟩, [Effect.statsBegin])

/-- Lines 126 and 127: this.cube.rotation.x += 0.01; this.cube.rotation.y += 0.01. -/
def stepRotate (s : Sys) : Sys × List Effect :=
  (⟨{ s.ctrl with cube := { s.ctrl.cube with
        rotX := s.ctrl.cube.rotX + 1/100,
        rotY := s.ctrl.cube.rotY + 1/100 } }, s.platform⟩, [Effect.rotateCube])

/-- Line 130: this.controls.update(). -/
def stepControls (s : Sys) : Sys × List Effect :=
  (⟨{ s.ctrl with controls := controlsUpdate s.ctrl.controls }, s.platform⟩,
   [Effect.controlsStep])

/-- Line 133: this.renderer.render(this.scene, this.camera). -/
def stepRender (s : Sys) : Sys × List Effect :=
  (⟨{ s.ctrl with renderer := rendererRender s.ctrl.renderer }, s.platform⟩,
   [Effect.render])

/-- Line 135: this.stats.end(). -/
def stepStatsEnd (s : Sys) : Sys × List Effect :=
  (⟨{ s.ctrl with stats := s.ctrl.stats.endFrame }, s.platform⟩, [Effect.statsEnd])

/-- animate(), lines 119-136: the per-frame AnimationStep, with the effect
trace in source order. -/
def animateSys : Sys → Sys × List Effect :=
  seqE stepSchedule (seqE stepStatsBegin (seqE stepRotate
    (seqE stepControls (seqE stepRender stepStatsEnd))))

/-- The state transformation of one AnimationStep. -/
def animateState (s : Sys) : Sys :=
  (animateSys s).1

/-- The order the spec itself lists the AnimationStep side effects in:
overlay frame-start, rotation, control update, render, overlay frame-end,
and the reschedule last.  Stated from the spec's words, for comparison with
the trace the code produces. -/
def specListedEffectOrder (id : Nat) : List Effect :=
  [Effect.statsBegin, Effect.rotateCube, Effect.controlsStep,
   Effect.render, Effect.statsEnd, Effect.schedule id]

/-- Field values at class-field initialisation and in the constructor before
init(): new Scene(), new PerspectiveCamera(75, W/H, 0.1, 1000) (whose
construction commits the projection), new WebGLRenderer, new Stats(),
this.animationFrameId = 0, and the not-yet-configured controls handle. -/
def initialCtrl (W H : ℚ) : ThreeJSScene :=
  { scene := []
    camera := { fov := 75, aspect := W / H, near := 1/10, far := 1000,
                projectionAspect := W / H, posX := 0, posY := 0, posZ := 0 }
    renderer := { width := 0, height := 0, pixelRatio := 1,
                  outputWidth := 0, outputHeight := 0,
                  shadowMapEnabled := false, shadowMapSoft := false,
                  clearColor := 0, clearAlpha := 0, renderCount := 0,
                  contextDisposed := false, domAttached := false }
    controls := { enableDamping := false, dampingFactor := 0,
                  minDistance := 0, maxDistance := 0,
                  listenersBound := false, updateCalls := 0 }
    stats := { panel := 0, hasStatsClass := false, attached := false,
               begunFrames := 0, endedFrames := 0 }
    cube := { rotX := 0, rotY := 0, rotZ := 0 }
    animationFrameId := 0
    resizeBound := false }

/-- init(), lines 41-57: size the renderer to the viewport, set the device
pixel ratio, enable soft shadow mapping, set the clear color, attach the
output canvas to the #app container, and position the camera at
z = 5, y = 2, x = 2. -/
def initStep (W H dpr : ℚ) (c : ThreeJSScene) : ThreeJSScene :=
  let r1 := rendererSetSize c.renderer W H
  let r2 := rendererSetPixelRatio r1 dpr
  let r3 := { r2 with shadowMapEnabled := true, shadowMapSoft := true,
                      clearColor := 0x222222, clearAlpha := 1,
                      domAttached := true }
  { c with renderer := r3,
           camera := { c.camera with posZ := 5, posY := 2, posX := 2 } }

/-- createLights(), lines 59-71: add one ambient light (0x404040, 0.6) and one
directional light (0xffffff, 1, position (10,10,5), shadow-casting,
2048x2048 shadow map) to the scene. -/
def createLights (c : ThreeJSScene) : ThreeJSScene :=
  { c with scene :=
      (c.scene ++ [SceneObj.ambientLight 0x404040 (3/5)]) ++
        [SceneObj.directionalLight 0xffffff 1 10 10 5 true 2048 2048] }

/-- createGeometry(), lines 73-90: add the 1x1x1 green cube (casts and
receives shadow, identity transform as created) and the 10x10 gray ground
plane (rotation.x = -π/2, position.y = -1, shadow-receiving) to the
scene; this.cube refers to the cube mesh. -/
def createGeometry (c : ThreeJSScene) : ThreeJSScene :=
  let sc := (c.scene ++ [SceneObj.cubeMesh 1 1 1 0x00ff88 true true]) ++
    [SceneObj.planeMesh 10 10 0x666666 (-1) (-1) true]
  { c with scene := sc, cube := { rotX := 0, rotY := 0, rotZ := 0 } }

/-- setupControls(), lines 92-98: bind an OrbitControls handle to the camera
and the renderer's canvas with damping enabled (factor 0.05) and zoom
distance bounded to [2, 20]. -/
def setupControls (c : ThreeJSScene) : ThreeJSScene :=
  { c with controls := { enableDamping := true, dampingFactor := 1/20,
                         minDistance := 2, maxDistance := 20,
                         listenersBound := true, updateCalls := 0 } }

/-- setupStats(), lines 100-104: show the fps panel, add the css class, and
attach stats.dom to the page body. -/
def setupStats (c : ThreeJSScene) : ThreeJSScene :=
  { c with stats := { panel := 0, hasStatsClass := true, attached := true,
                      begunFrames := 0, endedFrames := 0 } }

/-- setupEventListeners(), lines 106-108: register the resize listener. -/
def setupEventListeners (c : ThreeJSScene) : ThreeJSScene :=
  { c with resizeBound := true }

/-- The controller state after the constructor's setup calls (init through
setupEventListeners), just before the constructor's final this.animate()
call; W, H are the viewport dimensions and dpr the device pixel ratio. -/
def constructCtrl (W H dpr : ℚ) : ThreeJSScene :=
  setupEventListeners (setupStats (setupControls (createGeometry
    (createLights (initStep W H dpr (initialCtrl W H))))))

/-- A freshly started platform scheduler with nothing pending. -/
def initPlatform : Platform :=
  { pending := [], nextId := 1 }

/-- The full constructor: setup, then the constructor's own animate() call,
which is the first AnimationStep invocation and starts the loop. -/
def constructSys (W H dpr : ℚ) : Sys :=
  animateState ⟨constructCtrl W H dpr, initPlatform⟩

/-- onWindowResize(), lines 110-117: set camera.aspect to the current
viewport ratio, commit the projection, and resize the renderer. -/
def onWindowResize (c : ThreeJSScene) (W H : ℚ) : ThreeJSScene :=
  let cam1 := { c.camera with aspect := W / H }
  let cam2 := cameraUpdateProjectionMatrix cam1
  { c with camera := cam2, renderer := rendererSetSize c.renderer W H }

/-- The resize event at system level: the platform scheduler is untouched. -/
def resizeSys (s : Sys) (W H : ℚ) : Sys :=
  ⟨onWindowResize s.ctrl W H, s.platform⟩

/-- The platform fires a pending animation frame with handle id: the handle is
consumed and the registered callback animate() runs. -/
def fireFrame (s : Sys) (id : Nat) : Sys :=
  animateState ⟨s.ctrl,
    { s.platform with pending := s.platform.pending.filter (fun x => x != id) }⟩

/-- dispose(), lines 138-151: cancel the pending animation frame if the stored
handle is nonzero, release the control's listeners, release the renderer's
graphics context, and remove stats.dom from its parent if still attached.
Returns none only if a DOM fault occurs (it never does: the removal is
guarded exactly as in the source). -/
def dispose (s : Sys) : Option Sys :=
  let p :=
    if s.ctrl.animationFrameId ≠ 0 then
      cancelAnimationFrame s.platform s.ctrl.animationFrameId
    else s.platform
  let c := { s.ctrl with controls := controlsDispose s.ctrl.controls,
                         renderer := rendererDispose s.ctrl.renderer }
  if c.stats.attached then
    (statsDomRemove c.stats).map fun st => ⟨{ c with stats := st }, p⟩
  else
    some ⟨c, p⟩

/-- The states a single controller instance can reach: construction, the
platform firing a pending frame, resize events, and disposal. -/
inductive Reach : Sys → Prop where
  | init (W H dpr : ℚ) : Reach (constructSys W H dpr)
  | fire (s : Sys) (id : Nat) : Reach s → id ∈ s.platform.pending →
      Reach (fireFrame s id)
  | resize (s : Sys) (W H : ℚ) : Reach s → Reach (resizeSys s W H)
  | dispose (s t : Sys) : Reach s → dispose s = some t → Reach t

/-- The state dispose() leaves behind: pending frame cancelled when a handle
was stored, listeners released, graphics context released, overlay
detached. -/
def disposedOf (s : Sys) : Sys :=
  ⟨{ s.ctrl with controls := controlsDispose s.ctrl.controls,
                 renderer := rendererDispose s.ctrl.renderer,
                 stats := { s.ctrl.stats with attached := false } },
   if s.ctrl.animationFrameId ≠ 0 then
     cancelAnimationFrame s.platform s.ctrl.animationFrameId
   else s.platform⟩

/-- A state whose animation-frame handle is absent (zero) and whose overlay
element is already detached from the page. -/
def detachedState : Sys :=
  ⟨{ (constructSys 800 600 2).ctrl with
      animationFrameId := 0,
      stats := { (constructSys 800 600 2).ctrl.stats with attached := false } },
   (constructSys 800 600 2).platform⟩

/-- The reachability invariant: at most one pending animation-frame handle,
and when one is pending it is exactly the stored handle; stored handles
and fresh handles are nonzero. -/
def SysInv (s : Sys) : Prop :=
  (s.platform.pending = [] ∨ s.platform.pending = [s.ctrl.animationFrameId])
  ∧ 1 ≤ s.ctrl.animationFrameId ∧ 1 ≤ s.platform.nextId

lemma filter_self_idem (p : Nat → Bool) (l : List Nat) :
    (l.filter p).filter p = l.filter p := by
  induction l with
  | nil => rfl
  | cons a t ih =>
    by_cases h : p a = true
    · simp [List.filter_cons, h, ih]
    · simp [List.filter_cons, h, ih]

lemma statsState_detach_eq (st : StatsState) (h : st.attached = false) :
    ({ st with attached := false } : StatsState) = st := by
  cases st
  simp_all

lemma dispose_eq (s : Sys) : dispose s = some (disposedOf s) := by
  by_cases hs : s.ctrl.stats.attached
  · simp [dispose, disposedOf, hs, statsDomRemove]
  · simp only [dispose, disposedOf, Bool.not_eq_true] at hs ⊢
    simp only [hs, Bool.false_eq_true, if_false, Option.some.injEq]
    rw [statsState_detach_eq s.ctrl.stats hs]

lemma disposedOf_idem (s : Sys) : disposedOf (disposedOf s) = disposedOf s := by
  by_cases ha : s.ctrl.animationFrameId = 0
  · simp [disposedOf, ha, rendererDispose, controlsDispose]
  · simp [disposedOf, ha, rendererDispose, controlsDispose, cancelAnimationFrame,
      filter_self_idem]

lemma disposedOf_afid (s : Sys) :
    (disposedOf s).ctrl.animationFrameId = s.ctrl.animationFrameId := rfl

lemma disposedOf_nextId (s : Sys) :
    (disposedOf s).platform.nextId = s.platform.nextId := by
  by_cases ha : s.ctrl.animationFrameId = 0 <;>
    simp [disposedOf, ha, cancelAnimationFrame]

lemma animateState_platform (s : Sys) :
    (animateState s).platform =
      { pending := s.platform.pending ++ [s.platform.nextId],
        nextId := s.platform.nextId + 1 } := rfl

lemma animateState_afid (s : Sys) :
    (animateState s).ctrl.animationFrameId = s.platform.nextId := rfl

lemma reach_inv (s : Sys) (h : Reach s) : SysInv s := by
  induction h with
  | init W H dpr =>
    refine ⟨Or.inr rfl, le_refl 1, ?_⟩
    show (1:ℕ) ≤ 2
    omega
  | fire s id hr hm ih =>
    obtain ⟨hp, h1, h2⟩ := ih
    have hpend : s.platform.pending = [s.ctrl.animationFrameId] := by
      rcases hp with hp | hp
      · rw [hp] at hm; exact absurd hm (List.not_mem_nil id)
      · exact hp
    have hid : id = s.ctrl.animationFrameId := by
      rw [hpend] at hm; simpa using hm
    refine ⟨Or.inr ?_, ?_, ?_⟩
    · rw [fireFrame, animateState_platform]
      simp [fireFrame, animateState_afid, hpend, hid]
    · rw [fireFrame, animateState_afid]
      exact h2
    · rw [fireFrame, animateState_platform]
      show 1 ≤ s.platform.nextId + 1
      omega
  | resize s W H hr ih => exact ih
  | dispose s t hr hd ih =>
    obtain ⟨hp, h1, h2⟩ := ih
    rw [dispose_eq s] at hd
    have ht : t = disposedOf s := (Option.some.inj hd).symm
    subst ht
    have ha : s.ctrl.animationFrameId ≠ 0 := by omega
    refine ⟨Or.inl ?_, ?_, ?_⟩
    · rcases hp with hp | hp
      · simp [disposedOf, ha, cancelAnimationFrame, hp]
      · simp [disposedOf, ha, cancelAnimationFrame, hp]
    · rw [disposedOf_afid]
      exact h1
    · rw [disposedOf_nextId]
      exact h2

/-- Claim C1 (counterexample): at the freshly constructed 800x600 state, the
trace of one AnimationStep is not the spec-listed order that puts the
reschedule last; the reschedule is the first effect and the overlay
frame-end notification the last. -/
theorem animate_order_cex :
    (animateSys (constructSys 800 600 2)).2 ≠ specListedEffectOrder 2
    ∧ ((animateSys (constructSys 800 600 2)).2).head? = some (Effect.schedule 2)
    ∧ ((animateSys (constructSys 800 600 2)).2).getLast? = some Effect.statsEnd := by
  refine ⟨by decide, rfl, rfl⟩

/-- Claim C1 (amended): each AnimationStep performs the reschedule FIRST, at
the top of the step, retaining the returned schedule handle, and then in
order: overlay frame-start, cube rotation advance on two axes,
orbit-control update, render through the camera, overlay frame-end. -/
theorem animate_effect_order (s : Sys) :
    (animateSys s).2 =
      [Effect.schedule s.platform.nextId, Effect.statsBegin, Effect.rotateCube,
       Effect.controlsStep, Effect.render, Effect.statsEnd]
    ∧ (animateState s).ctrl.animationFrameId = s.platform.nextId :=
  ⟨rfl, rfl⟩

/-- Claim C2: starting from the freshly constructed state (the setup completed,
the cube at rotation zero, the loop about to start), after N consecutive
AnimationStep invocations the cube rotation about x and about y is exactly
N times 0.01 radians; exact equality implies the congruence mod 2 pi. The
model has no time parameter, so the value is independent of wall-clock
time by construction. -/
theorem cube_rotation_linear (W H dpr : ℚ) (N : ℕ) :
    ((animateState^[N]) ⟨constructCtrl W H dpr, initPlatform⟩).ctrl.cube.rotX
        = N * (1/100)
    ∧ ((animateState^[N]) ⟨constructCtrl W H dpr, initPlatform⟩).ctrl.cube.rotY
        = N * (1/100) := by
  induction N with
  | zero =>
    refine ⟨?_, ?_⟩
    · simp only [Function.iterate_zero, id_eq, Nat.cast_zero, zero_mul]
      rfl
    · simp only [Function.iterate_zero, id_eq, Nat.cast_zero, zero_mul]
      rfl
  | succ n ih =>
    have hx : ∀ u : Sys, (animateState u).ctrl.cube.rotX = u.ctrl.cube.rotX + 1/100 :=
      fun u => rfl
    have hy : ∀ u : Sys, (animateState u).ctrl.cube.rotY = u.ctrl.cube.rotY + 1/100 :=
      fun u => rfl
    rw [Function.iterate_succ_apply']
    refine ⟨?_, ?_⟩
    · rw [hx, ih.1]; push_cast; ring
    · rw [hy, ih.2]; push_cast; ring

/-- Claim C3: after the resize handler runs with the viewport at W x H (both
positive), the camera aspect ratio and its committed projection aspect are
exactly W/H, and the rendering-surface output dimensions are W and H
scaled by the active device pixel ratio. -/
theorem resize_aspect_and_output (s : Sys) (W H : ℚ) (_hW : 0 < W) (_hH : 0 < H) :
    (resizeSys s W H).ctrl.camera.aspect = W / H
    ∧ (resizeSys s W H).ctrl.camera.projectionAspect = W / H
    ∧ (resizeSys s W H).ctrl.renderer.outputWidth = W * s.ctrl.renderer.pixelRatio
    ∧ (resizeSys s W H).ctrl.renderer.outputHeight = H * s.ctrl.renderer.pixelRatio :=
  ⟨rfl, rfl, rfl, rfl⟩

/-- Witness for claim C3 at the constructed 800x600 state resized to
1024x768. -/
theorem resize_aspect_and_output_witness :
    (0:ℚ) < 1024 ∧ (0:ℚ) < 768
    ∧ ((resizeSys (constructSys 800 600 2) 1024 768).ctrl.camera.aspect = 1024 / 768
      ∧ (resizeSys (constructSys 800 600 2) 1024 768).ctrl.camera.projectionAspect
          = 1024 / 768
      ∧ (resizeSys (constructSys 800 600 2) 1024 768).ctrl.renderer.outputWidth
          = 1024 * (constructSys 800 600 2).ctrl.renderer.pixelRatio
      ∧ (resizeSys (constructSys 800 600 2) 1024 768).ctrl.renderer.outputHeight
          = 768 * (constructSys 800 600 2).ctrl.renderer.pixelRatio) :=
  ⟨by norm_num, by norm_num,
   resize_aspect_and_output (constructSys 800 600 2) 1024 768
     (by norm_num) (by norm_num)⟩

/-- Claim C4: dispose() twice in succession does not fault and the second call
is a no-op; a zero (absent) animation-frame handle makes cancellation skip
(platform untouched), and an already-detached overlay element makes the
removal skip (stats state untouched). -/
theorem dispose_idem (s : Sys) :
    ∃ t, dispose s = some t ∧ dispose t = some t
      ∧ (s.ctrl.animationFrameId = 0 → t.platform = s.platform)
      ∧ (s.ctrl.stats.attached = false → t.ctrl.stats = s.ctrl.stats) := by
  refine ⟨disposedOf s, dispose_eq s, ?_, ?_, ?_⟩
  · rw [dispose_eq (disposedOf s), disposedOf_idem]
  · intro h; simp [disposedOf, h]
  · intro h
    show ({ s.ctrl.stats with attached := false } : StatsState) = s.ctrl.stats
    exact statsState_detach_eq s.ctrl.stats h

/-- Witness for claim C4 at a state with a zero handle and a detached overlay,
so both tolerance clauses are exercised. -/
theorem dispose_idem_witness :
    ∃ t, dispose detachedState = some t ∧ dispose t = some t
      ∧ (detachedState.ctrl.animationFrameId = 0 → t.platform = detachedState.platform)
      ∧ (detachedState.ctrl.stats.attached = false
          → t.ctrl.stats = detachedState.ctrl.stats) :=
  dispose_idem detachedState

/-- Claim C5: after construction the scene graph holds exactly four objects:
one ambient light, one directional light, one cube mesh and one
ground-plane mesh. -/
theorem scene_contents (W H dpr : ℚ) :
    ((constructSys W H dpr).ctrl.scene).length = 4
    ∧ ((constructSys W H dpr).ctrl.scene).countP SceneObj.isAmbientLight = 1
    ∧ ((constructSys W H dpr).ctrl.scene).countP SceneObj.isDirectionalLight = 1
    ∧ ((constructSys W H dpr).ctrl.scene).countP SceneObj.isCubeMesh = 1
    ∧ ((constructSys W H dpr).ctrl.scene).countP SceneObj.isPlaneMesh = 1 :=
  ⟨rfl, rfl, rfl, rfl, rfl⟩

/-- Claim C6: after construction with viewport W x H the camera has fov 75,
near 0.1, far 1000, aspect W/H (committed to the projection), and sits at
position (2, 2, 5). -/
theorem camera_after_construct (W H dpr : ℚ) :
    (constructSys W H dpr).ctrl.camera.fov = 75
    ∧ (constructSys W H dpr).ctrl.camera.near = 1/10
    ∧ (constructSys W H dpr).ctrl.camera.far = 1000
    ∧ (constructSys W H dpr).ctrl.camera.aspect = W / H
    ∧ (constructSys W H dpr).ctrl.camera.projectionAspect = W / H
    ∧ (constructSys W H dpr).ctrl.camera.posX = 2
    ∧ (constructSys W H dpr).ctrl.camera.posY = 2
    ∧ (constructSys W H dpr).ctrl.camera.posZ = 5 :=
  ⟨rfl, rfl, rfl, rfl, rfl, rfl, rfl, rfl⟩

/-- Claim C7: every reachable state has at most one outstanding scheduled
handle, the outstanding handle (when any) is exactly the one stored at the
top of the most recent step, dispose() leaves no handle pending, and a
resize or a second dispose after disposal leaves the pending set empty, so
no further AnimationStep can ever fire. -/
theorem single_loop_handle (s : Sys) (h : Reach s) :
    s.platform.pending.length ≤ 1
    ∧ (∀ id, id ∈ s.platform.pending → id = s.ctrl.animationFrameId)
    ∧ (∀ t, dispose s = some t → t.platform.pending = [])
    ∧ (∀ t W H, dispose s = some t → (resizeSys t W H).platform.pending = [])
    ∧ (∀ t u, dispose s = some t → dispose t = some u → u.platform.pending = []) := by
  obtain ⟨hp, h1, h2⟩ := reach_inv s h
  have ha : s.ctrl.animationFrameId ≠ 0 := by omega
  have hkill : ∀ t, dispose s = some t → t.platform.pending = [] := by
    intro t hd
    rw [dispose_eq s] at hd
    have ht : t = disposedOf s := (Option.some.inj hd).symm
    subst ht
    rcases hp with hp | hp
    · simp [disposedOf, ha, cancelAnimationFrame, hp]
    · simp [disposedOf, ha, cancelAnimationFrame, hp]
  refine ⟨?_, ?_, hkill, ?_, ?_⟩
  · rcases hp with hp | hp <;> simp [hp]
  · intro id hm
    rcases hp with hp | hp
    · rw [hp] at hm; exact absurd hm (List.not_mem_nil id)
    · rw [hp] at hm; simpa using hm
  · intro t W H hd
    exact hkill t hd
  · intro t u hd hd2
    have h0 : t.platform.pending = [] := hkill t hd
    rw [dispose_eq t] at hd2
    have hu : u = disposedOf t := (Option.some.inj hd2).symm
    subst hu
    by_cases hta : t.ctrl.animationFrameId = 0
    · simp [disposedOf, hta, h0]
    · simp [disposedOf, hta, cancelAnimationFrame, h0]

/-- Witness for claim C7 at the freshly constructed 800x600 state. -/
theorem single_loop_handle_witness :
    (constructSys 800 600 2).platform.pending.length ≤ 1
    ∧ (∀ id, id ∈ (constructSys 800 600 2).platform.pending
        → id = (constructSys 800 600 2).ctrl.animationFrameId)
    ∧ (∀ t, dispose (constructSys 800 600 2) = some t → t.platform.pending = [])
    ∧ (∀ t W H, dispose (constructSys 800 600 2) = some t
        → (resizeSys t W H).platform.pending = [])
    ∧ (∀ t u, dispose (constructSys 800 600 2) = some t → dispose t = some u
        → u.platform.pending = []) :=
  single_loop_handle (constructSys 800 600 2) (Reach.init 800 600 2)

/-- Claim C8: with the constructed orbit-control configuration (distance
bounds [2, 20]), a zoom input requesting a distance below 2 is clamped to
2, one above 20 is clamped to 20, and an in-range request is unchanged. -/
theorem zoom_distance_clamp (W H dpr d : ℚ) :
    (d < 2 → orbitEffectiveDistance (constructSys W H dpr).ctrl.controls d = 2)
    ∧ (20 < d → orbitEffectiveDistance (constructSys W H dpr).ctrl.controls d = 20)
    ∧ (2 ≤ d → d ≤ 20
        → orbitEffectiveDistance (constructSys W H dpr).ctrl.controls d = d) := by
  have e : orbitEffectiveDistance (constructSys W H dpr).ctrl.controls d
      = max 2 (min 20 d) := rfl
  refine ⟨?_, ?_, ?_⟩
  · intro h
    rw [e]
    exact max_eq_left ((min_le_right (20:ℚ) d).trans h.le)
  · intro h
    rw [e, min_eq_left h.le]
    exact max_eq_right (by norm_num)
  · intro h1 h2
    rw [e, min_eq_right h2]
    exact max_eq_right h1

/-- Witness for claim C8: a zoom to distance 1 is clamped to 2 and a zoom to
distance 25 is clamped to 20. -/
theorem zoom_distance_clamp_witness :
    orbitEffectiveDistance (constructSys 800 600 2).ctrl.controls 1 = 2
    ∧ orbitEffectiveDistance (constructSys 800 600 2).ctrl.controls 25 = 20 :=
  ⟨(zoom_distance_clamp 800 600 2 1).1 (by norm_num),
   (zoom_distance_clamp 800 600 2 25).2.1 (by norm_num)⟩

/-- Claim C9: the resize handler changes only the camera aspect (with its
committed projection) and the renderer size; camera position, fov and clip
planes, the cube transform, the scene contents, the orbit-control state,
the overlay state, the handle and the platform are untouched. -/
theorem resize_frame (s : Sys) (W H : ℚ) :
    (resizeSys s W H).ctrl.camera.posX = s.ctrl.camera.posX
    ∧ (resizeSys s W H).ctrl.camera.posY = s.ctrl.camera.posY
    ∧ (resizeSys s W H).ctrl.camera.posZ = s.ctrl.camera.posZ
    ∧ (resizeSys s W H).ctrl.camera.fov = s.ctrl.camera.fov
    ∧ (resizeSys s W H).ctrl.camera.near = s.ctrl.camera.near
    ∧ (resizeSys s W H).ctrl.camera.far = s.ctrl.camera.far
    ∧ (resizeSys s W H).ctrl.cube = s.ctrl.cube
    ∧ (resizeSys s W H).ctrl.scene = s.ctrl.scene
    ∧ (resizeSys s W H).ctrl.controls = s.ctrl.controls
    ∧ (resizeSys s W H).ctrl.stats = s.ctrl.stats
    ∧ (resizeSys s W H).ctrl.animationFrameId = s.ctrl.animationFrameId
    ∧ (resizeSys s W H).platform = s.platform :=
  ⟨rfl, rfl, rfl, rfl, rfl, rfl, rfl, rfl, rfl, rfl, rfl, rfl⟩

/-- Claim C10: dispose() never detaches the rendering surface's canvas (it
stays exactly as attached as before), and on the constructed state the
canvas remains attached while the overlay element is removed. -/
theorem dispose_keeps_canvas (W H dpr : ℚ) (s : Sys) :
    ((dispose s).map fun t => t.ctrl.renderer.domAttached)
        = some s.ctrl.renderer.domAttached
    ∧ ((dispose (constructSys W H dpr)).map fun t =>
        (t.ctrl.renderer.domAttached, t.ctrl.stats.attached)) = some (true, false) := by
  constructor
  · rw [dispose_eq]; rfl
  · rw [dispose_eq]; rfl

end ThreeDemo
